import Mathlib

/-! Namespace backup admission webhook.

A shallow embedding of `namespace-webhook/main.go` and the properties of its
admission handler `ServerNamespaceBackup`.

Conventions of the embedding:

* a Go `error` is its message, `Option Err` (`none` is `nil`);
* a Go `map[string]string` is an association list, read with the two-valued
  index expression `v, ok := m[key]` (`mapIndex`);
* the dynamic Kubernetes client is a parameter: a function answering each
  call from the state of the external store, and every call the code makes is
  recorded, in order, in `World.calls`;
* `time.Now()` is a parameter `now`;
* the `http.ResponseWriter` is represented by what the handler wrote to it;
* logging is not modelled.
-/

namespace NamespaceWebhook

/-! ## Data model -/

/-- A Go `error`, represented by its message. -/
abbrev Err := String

/-- The part of `corev1.Namespace` the handler reads: `metadata.name` and
`metadata.labels`. -/
structure Namespace where
  Name : String
  Labels : List (String × String)
deriving DecidableEq, Repr

/-- The zero value `corev1.Namespace{}`. -/
def Namespace.zero : Namespace := { Name := "", Labels := [] }

/-- The Go index expression `v, ok := m[key]` on a `map[string]string`: the
zero value `""` and `false` when the key is absent. -/
def mapIndex (m : List (String × String)) (key : String) : String × Bool :=
  match m.lookup key with
  | some v => (v, true)
  | none => ("", false)

/-- A `runtime.RawExtension` payload, represented by what `json.Unmarshal`
into a fresh `corev1.Namespace` makes of its bytes: `invalid err` for bytes the
decoder rejects with error `err` (the empty payload of an absent object is one
of them, "unexpected end of JSON input"), `valid ns` for bytes that decode
to `ns`. -/
inductive RawExtension where
  | invalid (err : Err)
  | valid (ns : Namespace)
deriving DecidableEq, Repr

/-- The call `json.Unmarshal(raw, &namespace)` on a fresh namespace. -/
def jsonUnmarshal : RawExtension → Except Err Namespace
  | .invalid err => .error err
  | .valid ns => .ok ns

/-- The type `admissionv1.Operation` is a string. -/
abbrev Operation := String

/-- The constant `admissionv1.Create`. -/
def Create : Operation := "CREATE"
/-- The constant `admissionv1.Update`. -/
def Update : Operation := "UPDATE"
/-- The constant `admissionv1.Delete`. -/
def Delete : Operation := "DELETE"
/-- The constant `admissionv1.Connect`, a kind the handler does not recognise. -/
def Connect : Operation := "CONNECT"

/-- The fields of `admissionv1.AdmissionRequest` the handler reads. -/
structure AdmissionRequest where
  UID : String
  Operation : Operation
  Object : RawExtension
  OldObject : RawExtension
deriving DecidableEq, Repr

/-- An incoming `admissionv1.AdmissionReview`; `Request` is a pointer and may
be nil. -/
structure AdmissionReview where
  Request : Option AdmissionRequest
deriving DecidableEq, Repr

/-- The body of the HTTP request, represented by what reading it and
`json.Unmarshal` into an `AdmissionReview` make of it. -/
inductive RequestBody where
  | empty
  | invalid (err : Err)
  | review (a : AdmissionReview)
deriving DecidableEq, Repr

/-- The parts of `http.Request` the handler reads. -/
structure HttpRequest where
  ContentType : String
  Body : RequestBody
deriving DecidableEq, Repr

/-- The `admissionv1.AdmissionResponse` of the outgoing review. -/
structure AdmissionResponse where
  Allowed : Bool
  UID : String
deriving DecidableEq, Repr

/-- What the handler wrote to its `http.ResponseWriter`: nothing at all, an
`http.Error(w, error, code)`, or the marshalled review carrying `response`. -/
inductive ResponseWriter where
  | nothing
  | httpError (error : String) (code : Nat)
  | review (response : AdmissionResponse)
deriving DecidableEq, Repr

/-- The value `http.StatusBadRequest`. -/
def StatusBadRequest : Nat := 400
/-- The value `http.StatusInternalServerError`. -/
def StatusInternalServerError : Nat := 500

/-! ## The external backup-management API -/

/-- A `schema.GroupVersionResource`. -/
structure GroupVersionResource where
  Group : String
  Version : String
  Resource : String
deriving DecidableEq, Repr

/-- The `spec.template` map of a Velero schedule. -/
structure ScheduleTemplate where
  csiSnapshotTimeout : String
  includedNamespaces : List String
  storageLocation : String
  ttl : String
  defaultVolumesToFsBackup : Bool
deriving DecidableEq, Repr

/-- The `spec` map of the two kinds of object the code creates. -/
inductive ObjectSpec where
  | schedule (schedule : String) (useOwnerReferencesInBackup : Bool)
      (template : ScheduleTemplate)
  | backup (csiSnapshotTimeout : String) (itemOperationTimeout : String)
      (includedNamespaces : List String) (storageLocation : String) (ttl : String)
      (defaultVolumesToFsBackup : Bool)
deriving DecidableEq, Repr

/-- An `unstructured.Unstructured` object as the code builds it; `name` and
`Namespace` are the two entries of its `metadata` map. -/
structure Unstructured where
  apiVersion : String
  kind : String
  name : String
  Namespace : String
  spec : ObjectSpec
deriving DecidableEq, Repr

/-- One call on the dynamic client,
`client.Resource(resource).Namespace(ns).Get/Create/Delete(...)`. -/
inductive Call where
  | get (resource : GroupVersionResource) (ns : String) (name : String)
  | create (resource : GroupVersionResource) (ns : String) (obj : Unstructured)
  | delete (resource : GroupVersionResource) (ns : String) (name : String)
deriving DecidableEq, Repr

/-- The dynamic client together with the store behind it: the error a call
returns in a store state, and the state it leaves. -/
abbrev Client (σ : Type) := Call → σ → Option Err × σ

/-- The external store and the calls issued so far, oldest first. -/
structure World (σ : Type) where
  state : σ
  calls : List Call

/-- Issue one call: record it and let the client answer it. -/
def invoke {σ : Type} (client : Client σ) (k : Call) (w : World σ) : Option Err × World σ :=
  ((client k w.state).1, { state := (client k w.state).2, calls := w.calls ++ [k] })

/-- The results of `rest.InClusterConfig()` and `dynamic.NewForConfig(config)`:
the error each returns, if any. -/
structure Cluster where
  inClusterConfig : Option Err
  newForConfig : Option Err
deriving DecidableEq, Repr

/-! ## Time formatting -/

/-- The calendar fields of a `time.Time` that the layout reads. -/
structure Time where
  year : Nat
  month : Nat
  day : Nat
  hour : Nat
  minute : Nat
  second : Nat
deriving DecidableEq, Repr

/-- The digit byte `'0' + byte(u)`. -/
def utod (u : Nat) : Char := Char.ofNat (48 + u)

/-- The function `appendInt` of package `time` on a non-negative integer: the
decimal representation of `x`, padded with zeros on the left to `width`. -/
def appendInt (x width : Nat) : List Char :=
  if width = 2 ∧ x < 100 then [utod (x / 10), utod (x % 10)]
  else if width = 4 ∧ x < 10000 then
    [utod (x / 1000), utod (x / 100 % 10), utod (x / 10 % 10), utod (x % 10)]
  else List.replicate (width - (Nat.toDigits 10 x).length) '0' ++ Nat.toDigits 10 x

/-- The call `t.Format("20060102150405")`: four-digit year, then two-digit
month, day, hour, minute and second. -/
def Time.Format (t : Time) : String :=
  String.mk (appendInt t.year 4 ++ appendInt t.month 2 ++ appendInt t.day 2
    ++ appendInt t.hour 2 ++ appendInt t.minute 2 ++ appendInt t.second 2)

/-! ## The three operations on the external API -/

/-- The function `createVeleroSchedule`. -/
def createVeleroSchedule {σ : Type} (client : Client σ) (projectName targetName
    namespaceName cronExpression : String) (w : World σ) : Option Err × World σ :=
  let scheduleName := projectName ++ "-" ++ targetName ++ "-" ++ namespaceName
  let veleroScheduleResource : GroupVersionResource :=
    { Group := "velero.io", Version := "v1", Resource := "schedules" }
  let got := invoke client (.get veleroScheduleResource "velero" scheduleName) w
  match got.1 with
  | some _ => (none, got.2)
  | none =>
    let veleroSchedule : Unstructured :=
      { apiVersion := "velero.io/v1"
        kind := "Schedule"
        name := scheduleName
        Namespace := "velero"
        spec := .schedule cronExpression false
          { csiSnapshotTimeout := "10m"
            includedNamespaces := [namespaceName]
            storageLocation := "default"
            ttl := "720h0m0s"
            defaultVolumesToFsBackup := true } }
    let created := invoke client (.create veleroScheduleResource "velero" veleroSchedule) got.2
    match created.1 with
    | some err => (some err, created.2)
    | none => (none, created.2)

/-- The function `createVeleroBackup`. -/
def createVeleroBackup {σ : Type} (client : Client σ) (now : Time) (projectName targetName
    namespaceName : String) (w : World σ) : Option Err × World σ :=
  let scheduleName := projectName ++ "-" ++ targetName ++ "-" ++ namespaceName
  let backupName := scheduleName ++ "-" ++ now.Format
  let veleroBackupResource : GroupVersionResource :=
    { Group := "velero.io", Version := "v1", Resource := "backups" }
  let veleroBackup : Unstructured :=
    { apiVersion := "velero.io/v1"
      kind := "Backup"
      name := backupName
      Namespace := "velero"
      spec := .backup "10m" "4h" [namespaceName] "default" "720h0m0s" true }
  let created := invoke client (.create veleroBackupResource "velero" veleroBackup) w
  match created.1 with
  | some err => (some err, created.2)
  | none => (none, created.2)

/-- The function `deleteVeleroSchedule`. -/
def deleteVeleroSchedule {σ : Type} (client : Client σ) (projectName targetName
    namespaceName : String) (w : World σ) : Option Err × World σ :=
  let scheduleName := projectName ++ "-" ++ targetName ++ "-" ++ namespaceName
  let veleroScheduleResource : GroupVersionResource :=
    { Group := "velero.io", Version := "v1", Resource := "schedules" }
  let deleted := invoke client (.delete veleroScheduleResource "velero" scheduleName) w
  match deleted.1 with
  | some err => (some err, deleted.2)
  | none => (none, deleted.2)

/-! ## The admission handler -/

/-- The verb `%q` of `fmt` on a string: the string in double quotes (the
escaping of special characters inside it is not modelled). -/
def quote (s : String) : String :=
  String.singleton (Char.ofNat 34) ++ s ++ String.singleton (Char.ofNat 34)

/-- The function `parseRequest`: the request of the decoded review (never nil
on success), or the error. -/
def parseRequest (r : HttpRequest) : Except Err AdmissionRequest :=
  if r.ContentType ≠ "application/json" then
    .error ("Content-Type: " ++ quote r.ContentType ++ " should be "
      ++ quote "application/json")
  else
    match r.Body with
    | .empty => .error "Admission request body is empty"
    | .invalid err => .error ("Failed to parse admission request: " ++ err)
    | .review a =>
      match a.Request with
      | none => .error "Admission request is empty"
      | some request => .ok request

/-- The first `switch` of `ServerNamespaceBackup` (lines 54-76): the decoded
previous namespace with which the handler goes on, or what it wrote before
returning early. -/
def decodeOldNamespace (request : AdmissionRequest) : Except ResponseWriter Namespace :=
  if request.Operation = Create then .ok Namespace.zero
  else if request.Operation = Update then
    match jsonUnmarshal request.OldObject with
    | .error err =>
      .error (.httpError ("Could not parse old namespace: " ++ err) StatusBadRequest)
    | .ok oldNamespace => .ok oldNamespace
  else if request.Operation = Delete then
    match jsonUnmarshal request.OldObject with
    | .error err =>
      .error (.httpError ("Could not parse old namespace: " ++ err) StatusBadRequest)
    | .ok oldNamespace => .ok oldNamespace
  else .error .nothing

/-- The second `switch` of `ServerNamespaceBackup` (lines 92-149): the calls
on the external API, and what the handler wrote if it returned early on an
error (`none` when it goes on to the response). -/
def runActions {σ : Type} (client : Client σ) (now : Time) (operation : Operation)
    (ns oldNamespace : Namespace) (w : World σ) : Option ResponseWriter × World σ :=
  let targetName := (mapIndex ns.Labels "namespace.oam.dev/target").1
  let targetKey := (mapIndex ns.Labels "namespace.oam.dev/target").2
  let runtime := (mapIndex ns.Labels "usage.oam.dev/runtime").1
  let runtimeKey := (mapIndex ns.Labels "usage.oam.dev/runtime").2
  let projectName := "test-project"
  if operation = Create then
    if targetKey && targetName != "" && runtimeKey && runtime == "target" then
      let cronExpression := "@every 5m"
      let scheduled := createVeleroSchedule client projectName targetName ns.Name
        cronExpression w
      match scheduled.1 with
      | some err =>
        (some (.httpError ("Failed to create Velero schedule: " ++ err)
          StatusInternalServerError), scheduled.2)
      | none =>
        let backedUp := createVeleroBackup client now projectName targetName ns.Name
          scheduled.2
        match backedUp.1 with
        | some err =>
          (some (.httpError ("Failed to create Velero backup: " ++ err)
            StatusInternalServerError), backedUp.2)
        | none => (none, backedUp.2)
    else (none, w)
  else if operation = Update then
    let oldTargetName := (mapIndex oldNamespace.Labels "namespace.oam.dev/target").1
    let oldTargetKey := (mapIndex oldNamespace.Labels "namespace.oam.dev/target").2
    let oldRuntime := (mapIndex oldNamespace.Labels "usage.oam.dev/runtime").1
    let oldRuntimeKey := (mapIndex oldNamespace.Labels "usage.oam.dev/runtime").2
    if targetKey && targetName != "" && runtimeKey && runtime == "target"
        && (!oldTargetKey || oldTargetName == "")
        && (!oldRuntimeKey || oldRuntime == "") then
      let cronExpression := "@every 5m"
      let scheduled := createVeleroSchedule client projectName targetName ns.Name
        cronExpression w
      match scheduled.1 with
      | some err =>
        (some (.httpError ("Failed to create Velero schedule: " ++ err)
          StatusInternalServerError), scheduled.2)
      | none =>
        let backedUp := createVeleroBackup client now projectName targetName ns.Name
          scheduled.2
        match backedUp.1 with
        | some err =>
          (some (.httpError ("Failed to create Velero backup: " ++ err)
            StatusInternalServerError), backedUp.2)
        | none => (none, backedUp.2)
    else if (!targetKey || targetName == "" || !runtimeKey || runtime != "target")
        && oldTargetKey && oldTargetName != "" && oldRuntimeKey
        && oldRuntime == "target" then
      let deleted := deleteVeleroSchedule client projectName targetName ns.Name w
      match deleted.1 with
      | some err =>
        (some (.httpError ("Failed to delete Velero schedule: " ++ err)
          StatusInternalServerError), deleted.2)
      | none => (none, deleted.2)
    else (none, w)
  else if operation = Delete then
    if targetKey && targetName != "" && runtimeKey && runtime == "target" then
      let deleted := deleteVeleroSchedule client projectName targetName ns.Name w
      match deleted.1 with
      | some err =>
        (some (.httpError ("Failed to delete Velero schedule: " ++ err)
          StatusInternalServerError), deleted.2)
      | none => (none, deleted.2)
    else (none, w)
  else (none, w)

/-- The handler `ServerNamespaceBackup`: what it wrote to the response writer
and the world it leaves. `json.Marshal` of the response cannot fail on a
value of this shape, so that error branch is not represented. -/
def ServerNamespaceBackup {σ : Type} (cluster : Cluster) (client : Client σ) (now : Time)
    (r : HttpRequest) (w : World σ) : ResponseWriter × World σ :=
  match parseRequest r with
  | .error err => (.httpError err StatusBadRequest, w)
  | .ok request =>
    match jsonUnmarshal request.Object with
    | .error err =>
      (.httpError ("Could not parse namespace: " ++ err) StatusBadRequest, w)
    | .ok ns =>
      match decodeOldNamespace request with
      | .error written => (written, w)
      | .ok oldNamespace =>
        match cluster.inClusterConfig with
        | some err =>
          (.httpError ("Could not get in-cluster config: " ++ err)
            StatusInternalServerError, w)
        | none =>
          match cluster.newForConfig with
          | some err =>
            (.httpError ("Could not create clientset: " ++ err)
              StatusInternalServerError, w)
          | none =>
            let acted := runActions client now request.Operation ns oldNamespace w
            match acted.1 with
            | some written => (written, acted.2)
            | none => (.review { Allowed := true, UID := request.UID }, acted.2)

/-! ## A model of the external store -/

/-- The external store as explicit state: the names of the schedules and of
the backups it holds. -/
structure Store where
  schedules : List String
  backups : List String
deriving DecidableEq, Repr

/-- The API server in front of the store: `Get` and `Delete` fail on a name
that is absent, `Create` fails on a name that is present, and a successful
`Create` or `Delete` adds or removes the name. -/
def storeClient : Client Store := fun k s =>
  match k with
  | .get resource _ name =>
    if resource.Resource = "schedules" then
      if name ∈ s.schedules then (none, s) else (some "not found", s)
    else
      if name ∈ s.backups then (none, s) else (some "not found", s)
  | .create resource _ obj =>
    if resource.Resource = "schedules" then
      if obj.name ∈ s.schedules then (some "already exists", s)
      else (none, { s with schedules := s.schedules ++ [obj.name] })
    else
      if obj.name ∈ s.backups then (some "already exists", s)
      else (none, { s with backups := s.backups ++ [obj.name] })
  | .delete resource _ name =>
    if resource.Resource = "schedules" then
      if name ∈ s.schedules then
        (none, { s with schedules := s.schedules.filter (fun n => n != name) })
      else (some "not found", s)
    else
      if name ∈ s.backups then
        (none, { s with backups := s.backups.filter (fun n => n != name) })
      else (some "not found", s)

/-! ## Vocabulary of the specification -/

/-- Enrollment as the specification defines it: the target label is present
with a non-empty value and the runtime label is present with value exactly
`"target"`. -/
def enrolled (labels : List (String × String)) : Bool :=
  match labels.lookup "namespace.oam.dev/target", labels.lookup "usage.oam.dev/runtime" with
  | some target, some runtime => target != "" && runtime == "target"
  | _, _ => false

/-- The target name of a label set: the value of the target label, `""` when
the label is absent. -/
def targetNameOf (labels : List (String × String)) : String :=
  (labels.lookup "namespace.oam.dev/target").getD ""

/-- The schedule identity the specification gives: `<project>-<target>-<namespace>`. -/
def scheduleIdentity (project target ns : String) : String :=
  project ++ "-" ++ target ++ "-" ++ ns

/-- The resource of Velero schedules. -/
def schedules : GroupVersionResource :=
  { Group := "velero.io", Version := "v1", Resource := "schedules" }

/-- The resource of Velero backups. -/
def backups : GroupVersionResource :=
  { Group := "velero.io", Version := "v1", Resource := "backups" }

/-- The action `EnsureScheduleAndBackup` of the specification, as the handler
carries it out (lines 99-111): `createVeleroSchedule`, then, unless it
returned an error, `createVeleroBackup`; an error of either is reported with
`http.Error` and ends the call. The result is what was written on an error
(`none` on success) and the world left. -/
def EnsureScheduleAndBackup {σ : Type} (client : Client σ) (now : Time)
    (project target ns : String) (w : World σ) : Option ResponseWriter × World σ :=
  match (createVeleroSchedule client project target ns "@every 5m" w).1 with
  | some err =>
    (some (.httpError ("Failed to create Velero schedule: " ++ err) 500),
      (createVeleroSchedule client project target ns "@every 5m" w).2)
  | none =>
    match (createVeleroBackup client now project target ns
        (createVeleroSchedule client project target ns "@every 5m" w).2).1 with
    | some err =>
      (some (.httpError ("Failed to create Velero backup: " ++ err) 500),
        (createVeleroBackup client now project target ns
          (createVeleroSchedule client project target ns "@every 5m" w).2).2)
    | none =>
      (none, (createVeleroBackup client now project target ns
        (createVeleroSchedule client project target ns "@every 5m" w).2).2)

/-- The action `DeleteSchedule` of the specification, as the handler carries
it out (lines 131-136 and 142-147): `deleteVeleroSchedule`, an error of which
is reported with `http.Error` and ends the call. -/
def DeleteSchedule {σ : Type} (client : Client σ) (project target ns : String)
    (w : World σ) : Option ResponseWriter × World σ :=
  match (deleteVeleroSchedule client project target ns w).1 with
  | some err =>
    (some (.httpError ("Failed to delete Velero schedule: " ++ err) 500),
      (deleteVeleroSchedule client project target ns w).2)
  | none => (none, (deleteVeleroSchedule client project target ns w).2)

/-- A label set in which neither of the two labels has a non-empty value: the
target label is absent or empty and the runtime label is absent or empty. -/
def unlabelled (labels : List (String × String)) : Bool :=
  (labels.lookup "namespace.oam.dev/target").getD "" == ""
    && (labels.lookup "usage.oam.dev/runtime").getD "" == ""

/-- The schedule object of lines 184-204, by its name, the namespace it
covers and its cadence. -/
def scheduleObject (name ns cron : String) : Unstructured :=
  { apiVersion := "velero.io/v1", kind := "Schedule", name := name, Namespace := "velero",
    spec := .schedule cron false
      { csiSnapshotTimeout := "10m", includedNamespaces := [ns],
        storageLocation := "default", ttl := "720h0m0s",
        defaultVolumesToFsBackup := true } }

/-- The backup object of lines 225-242, by its name and the namespace it
covers. -/
def backupObject (name ns : String) : Unstructured :=
  { apiVersion := "velero.io/v1", kind := "Backup", name := name, Namespace := "velero",
    spec := .backup "10m" "4h" [ns] "default" "720h0m0s" true }

/-- An admission request as it arrives over HTTP, well-formed at the transport
level: JSON content type and a body holding a review with this request. -/
def admission (request : AdmissionRequest) : HttpRequest :=
  { ContentType := "application/json", Body := .review { Request := some request } }

/-- A cluster in which building the client succeeds. -/
def inCluster : Cluster := { inClusterConfig := none, newForConfig := none }

/-- The calendar ranges of a wall-clock time with a four-digit year. -/
def Time.Valid (t : Time) : Prop :=
  t.year < 10000 ∧ 1 ≤ t.month ∧ t.month ≤ 12 ∧ 1 ≤ t.day ∧ t.day ≤ 31
    ∧ t.hour < 24 ∧ t.minute < 60 ∧ t.second < 60

/-- The schedule or backup name a call is about. -/
def Call.name : Call → String
  | .get _ _ name => name
  | .create _ _ obj => obj.name
  | .delete _ _ name => name

/-! ## Fixtures for the concrete evaluations -/

/-- The label set of an enrolled namespace with target `prod`. -/
def prodLabels : List (String × String) :=
  [("namespace.oam.dev/target", "prod"), ("usage.oam.dev/runtime", "target")]

/-- The wall-clock time 2024-01-02 03:04:05. -/
def instant1 : Time :=
  { year := 2024, month := 1, day := 2, hour := 3, minute := 4, second := 5 }

/-- The wall-clock time one second after `instant1`. -/
def instant2 : Time :=
  { year := 2024, month := 1, day := 2, hour := 3, minute := 4, second := 6 }

/-- A world whose store is empty and in which no call has been issued. -/
def emptyWorld : World Store := { state := { schedules := [], backups := [] }, calls := [] }

/-- A world whose store holds the schedule of target `prod` for namespace `ns`. -/
def prodWorld : World Store :=
  { state := { schedules := ["test-project-prod-ns"], backups := [] }, calls := [] }

/-- A client whose every call succeeds, on a store without state. -/
def okClient : Client Unit := fun _ s => (none, s)

/-- A client whose reads report "not found" and whose creations and deletions
succeed, on a store without state. -/
def freshClient : Client Unit := fun k s =>
  match k with
  | .get _ _ _ => (some "not found", s)
  | _ => (none, s)

/-- Whether a call is a read. -/
def Call.isGet : Call → Bool
  | .get _ _ _ => true
  | _ => false

/-! ## Basic facts -/

theorem invoke_fst {σ : Type} (client : Client σ) (k : Call) (w : World σ) :
    (invoke client k w).1 = (client k w.state).1 := rfl

theorem invoke_calls {σ : Type} (client : Client σ) (k : Call) (w : World σ) :
    (invoke client k w).2.calls = w.calls ++ [k] := rfl

theorem invoke_state {σ : Type} (client : Client σ) (k : Call) (w : World σ) :
    (invoke client k w).2.state = (client k w.state).2 := rfl

theorem mapIndex_fst (m : List (String × String)) (key : String) :
    (mapIndex m key).1 = (m.lookup key).getD "" := by
  unfold mapIndex
  cases m.lookup key <;> rfl

theorem mapIndex_snd (m : List (String × String)) (key : String) :
    (mapIndex m key).2 = (m.lookup key).isSome := by
  unfold mapIndex
  cases m.lookup key <;> rfl

/-- The condition the handler tests on a label set (lines 98, 130 and 141) is
enrollment. -/
theorem condition_eq_enrolled (labels : List (String × String)) :
    ((mapIndex labels "namespace.oam.dev/target").2
      && (mapIndex labels "namespace.oam.dev/target").1 != ""
      && (mapIndex labels "usage.oam.dev/runtime").2
      && (mapIndex labels "usage.oam.dev/runtime").1 == "target") = enrolled labels := by
  unfold mapIndex enrolled
  cases labels.lookup "namespace.oam.dev/target" <;>
    cases labels.lookup "usage.oam.dev/runtime" <;> simp

/-- Enrollment in terms of the two labels. -/
theorem enrolled_iff (labels : List (String × String)) :
    enrolled labels = true ↔
      ∃ target, labels.lookup "namespace.oam.dev/target" = some target ∧ target ≠ ""
        ∧ labels.lookup "usage.oam.dev/runtime" = some "target" := by
  unfold enrolled
  cases labels.lookup "namespace.oam.dev/target" <;>
    cases labels.lookup "usage.oam.dev/runtime" <;> simp

/-- The handler on a transport-level well-formed request whose current object
decodes and whose client can be built, once the previous object is settled. -/
theorem handler_of_decoded {σ : Type} (client : Client σ) (now : Time)
    (request : AdmissionRequest) (ns oldNamespace : Namespace) (w : World σ)
    (hobj : request.Object = .valid ns)
    (hold : decodeOldNamespace request = .ok oldNamespace) :
    ServerNamespaceBackup inCluster client now (admission request) w =
      match (runActions client now request.Operation ns oldNamespace w).1 with
      | some written =>
        (written, (runActions client now request.Operation ns oldNamespace w).2)
      | none =>
        (.review { Allowed := true, UID := request.UID },
          (runActions client now request.Operation ns oldNamespace w).2) := by
  simp [ServerNamespaceBackup, parseRequest, admission, jsonUnmarshal, hobj, hold, inCluster]

/-- On Update between two label sets of equal enrollment the second switch
does nothing. -/
theorem runActions_update_same {σ : Type} (client : Client σ) (now : Time)
    (ns oldNamespace : Namespace) (w : World σ)
    (h : enrolled ns.Labels = enrolled oldNamespace.Labels) :
    runActions client now Update ns oldNamespace w = (none, w) := by
  have hc := condition_eq_enrolled ns.Labels
  have ho := condition_eq_enrolled oldNamespace.Labels
  rw [h] at hc
  revert hc ho
  simp only [runActions, Update, Create, Delete]
  generalize (mapIndex ns.Labels "namespace.oam.dev/target") = a
  generalize (mapIndex ns.Labels "usage.oam.dev/runtime") = b
  generalize (mapIndex oldNamespace.Labels "namespace.oam.dev/target") = c
  generalize (mapIndex oldNamespace.Labels "usage.oam.dev/runtime") = d
  generalize enrolled oldNamespace.Labels = e
  intro hc ho
  cases e <;> simp_all
  split_ifs with h1 h2 <;> first | rfl | (exfalso; tauto)

/-- C6. On every Update whose current and previous label sets have the same
enrollment status (both enrolled, whatever the two target names, or both not
enrolled) the handler leaves the world as it found it: it issues no call on
the external API and the store is untouched; and when the client can be built
it answers with the allowing review. -/
theorem update_same_enrollment_no_call {σ : Type} (cluster : Cluster) (client : Client σ)
    (now : Time) (uid : String) (ns oldNamespace : Namespace) (w : World σ)
    (h : enrolled ns.Labels = enrolled oldNamespace.Labels) :
    (ServerNamespaceBackup cluster client now
        (admission { UID := uid, Operation := Update, Object := .valid ns,
                     OldObject := .valid oldNamespace }) w).2 = w
      ∧ (ServerNamespaceBackup cluster client now
        (admission { UID := uid, Operation := Update, Object := .valid ns,
                     OldObject := .valid oldNamespace }) w).2.calls = w.calls
      ∧ ServerNamespaceBackup inCluster client now
        (admission { UID := uid, Operation := Update, Object := .valid ns,
                     OldObject := .valid oldNamespace }) w
        = (.review { Allowed := true, UID := uid }, w) := by
  have hrun := runActions_update_same client now ns oldNamespace w h
  have hworld : (ServerNamespaceBackup cluster client now
        (admission { UID := uid, Operation := Update, Object := .valid ns,
                     OldObject := .valid oldNamespace }) w).2 = w := by
    simp only [ServerNamespaceBackup, parseRequest, admission, jsonUnmarshal,
      decodeOldNamespace, Update, Create]
    simp only [Update] at hrun
    cases cluster.inClusterConfig <;> cases cluster.newForConfig <;> simp [hrun]
  refine ⟨hworld, by rw [hworld], ?_⟩
  rw [handler_of_decoded client now _ ns oldNamespace w rfl
    (by simp [decodeOldNamespace, Update, Create, jsonUnmarshal])]
  simp [hrun]

/-- Witness of C6: an Update between two enrolled label sets with different
targets, on the store model. -/
theorem update_same_enrollment_no_call_witness :
    enrolled [("namespace.oam.dev/target", "dev"), ("usage.oam.dev/runtime", "target")]
        = enrolled prodLabels
      ∧ ((ServerNamespaceBackup inCluster storeClient instant1
        (admission { UID := "uid-1", Operation := Update,
                     Object := .valid { Name := "ns", Labels :=
                       [("namespace.oam.dev/target", "dev"),
                        ("usage.oam.dev/runtime", "target")] },
                     OldObject := .valid { Name := "ns", Labels := prodLabels } })
        prodWorld).2 = prodWorld
      ∧ (ServerNamespaceBackup inCluster storeClient instant1
        (admission { UID := "uid-1", Operation := Update,
                     Object := .valid { Name := "ns", Labels :=
                       [("namespace.oam.dev/target", "dev"),
                        ("usage.oam.dev/runtime", "target")] },
                     OldObject := .valid { Name := "ns", Labels := prodLabels } })
        prodWorld).2.calls = prodWorld.calls
      ∧ ServerNamespaceBackup inCluster storeClient instant1
        (admission { UID := "uid-1", Operation := Update,
                     Object := .valid { Name := "ns", Labels :=
                       [("namespace.oam.dev/target", "dev"),
                        ("usage.oam.dev/runtime", "target")] },
                     OldObject := .valid { Name := "ns", Labels := prodLabels } })
        prodWorld = (.review { Allowed := true, UID := "uid-1" }, prodWorld)) :=
  ⟨by decide, update_same_enrollment_no_call inCluster storeClient instant1 "uid-1"
    { Name := "ns", Labels :=
        [("namespace.oam.dev/target", "dev"), ("usage.oam.dev/runtime", "target")] }
    { Name := "ns", Labels := prodLabels } prodWorld (by decide)⟩

/-- C9. Whatever the operation kind, a current-object payload that does not
decode ends the call with HTTP 400 and the message "Could not parse
namespace: ..." with the world untouched (no external call, no allowing
review); on Update and Delete a previous-object payload that does not decode
ends it with HTTP 400 and "Could not parse old namespace: ..." in the same
way; on Create the previous-object payload is never decoded: the outcome is the
same for every previous payload, decodable or not. -/
theorem undecodable_payload_rejected {σ : Type} (cluster : Cluster) (client : Client σ)
    (now : Time) (uid : String) (anyOperation operation : Operation) (err : Err)
    (ns : Namespace) (oldObject otherOldObject : RawExtension) (w : World σ)
    (hop : operation = Update ∨ operation = Delete) :
    ServerNamespaceBackup cluster client now
        (admission { UID := uid, Operation := anyOperation, Object := .invalid err,
                     OldObject := oldObject }) w
        = (.httpError ("Could not parse namespace: " ++ err) 400, w)
      ∧ ServerNamespaceBackup cluster client now
        (admission { UID := uid, Operation := operation, Object := .valid ns,
                     OldObject := .invalid err }) w
        = (.httpError ("Could not parse old namespace: " ++ err) 400, w)
      ∧ ServerNamespaceBackup cluster client now
        (admission { UID := uid, Operation := Create, Object := .valid ns,
                     OldObject := oldObject }) w
        = ServerNamespaceBackup cluster client now
        (admission { UID := uid, Operation := Create, Object := .valid ns,
                     OldObject := otherOldObject }) w := by
  refine ⟨?_, ?_, ?_⟩
  · simp [ServerNamespaceBackup, parseRequest, admission, jsonUnmarshal, StatusBadRequest]
  · rcases hop with h | h <;> subst h <;>
      simp [ServerNamespaceBackup, parseRequest, admission, jsonUnmarshal,
        decodeOldNamespace, StatusBadRequest, Update, Create, Delete]
  · simp [ServerNamespaceBackup, parseRequest, admission, jsonUnmarshal,
      decodeOldNamespace]

/-- Witness of C9: a Delete whose payloads are empty, as for an absent
object. -/
theorem undecodable_payload_rejected_witness :
    (Delete = Update ∨ Delete = Delete)
      ∧ (ServerNamespaceBackup inCluster storeClient instant1
        (admission { UID := "uid-1", Operation := Connect,
                     Object := .invalid "unexpected end of JSON input",
                     OldObject := .valid { Name := "ns", Labels := prodLabels } }) prodWorld
        = (.httpError ("Could not parse namespace: " ++ "unexpected end of JSON input") 400,
            prodWorld)
      ∧ ServerNamespaceBackup inCluster storeClient instant1
        (admission { UID := "uid-1", Operation := Delete,
                     Object := .valid { Name := "ns", Labels := prodLabels },
                     OldObject := .invalid "unexpected end of JSON input" }) prodWorld
        = (.httpError ("Could not parse old namespace: " ++ "unexpected end of JSON input")
            400, prodWorld)
      ∧ ServerNamespaceBackup inCluster storeClient instant1
        (admission { UID := "uid-1", Operation := Create,
                     Object := .valid { Name := "ns", Labels := prodLabels },
                     OldObject := .valid { Name := "ns", Labels := prodLabels } }) prodWorld
        = ServerNamespaceBackup inCluster storeClient instant1
        (admission { UID := "uid-1", Operation := Create,
                     Object := .valid { Name := "ns", Labels := prodLabels },
                     OldObject := .invalid "unexpected end of JSON input" }) prodWorld) :=
  ⟨Or.inr rfl, undecodable_payload_rejected inCluster storeClient instant1 "uid-1" Connect
    Delete "unexpected end of JSON input" { Name := "ns", Labels := prodLabels }
    (.valid { Name := "ns", Labels := prodLabels })
    (.invalid "unexpected end of JSON input") prodWorld (Or.inr rfl)⟩

/-! ## The calls of the three operations -/

/-- The calls of `createVeleroSchedule`: the read, and the creation exactly
when the read returned no error. -/
theorem createVeleroSchedule_calls {σ : Type} (client : Client σ)
    (project target ns cron : String) (w : World σ) :
    (createVeleroSchedule client project target ns cron w).2.calls =
      w.calls ++ Call.get schedules "velero" (scheduleIdentity project target ns) ::
        (if (client (.get schedules "velero" (scheduleIdentity project target ns))
              w.state).1 = none
          then [Call.create schedules "velero"
            (scheduleObject (scheduleIdentity project target ns) ns cron)]
          else []) := by
  simp only [createVeleroSchedule, invoke, schedules, scheduleIdentity, scheduleObject]
  split
  · rename_i e h
    simp [h]
  · rename_i h
    simp only [h, if_true]
    split <;> simp

/-- The one call of `createVeleroBackup`. -/
theorem createVeleroBackup_calls {σ : Type} (client : Client σ) (now : Time)
    (project target ns : String) (w : World σ) :
    (createVeleroBackup client now project target ns w).2.calls =
      w.calls ++ [Call.create backups "velero"
        (backupObject (scheduleIdentity project target ns ++ "-" ++ now.Format) ns)] := by
  simp only [createVeleroBackup, invoke, backups, scheduleIdentity, backupObject]
  split <;> rfl

/-- The one call of `deleteVeleroSchedule`. -/
theorem deleteVeleroSchedule_calls {σ : Type} (client : Client σ)
    (project target ns : String) (w : World σ) :
    (deleteVeleroSchedule client project target ns w).2.calls =
      w.calls ++ [Call.delete schedules "velero" (scheduleIdentity project target ns)] := by
  simp only [deleteVeleroSchedule, invoke, schedules, scheduleIdentity]
  split <;> rfl

/-- The calls of `EnsureScheduleAndBackup` begin with the read of the schedule. -/
theorem EnsureScheduleAndBackup_calls {σ : Type} (client : Client σ) (now : Time)
    (project target ns : String) (w : World σ) :
    ∃ rest, (EnsureScheduleAndBackup client now project target ns w).2.calls =
      w.calls ++ Call.get schedules "velero" (scheduleIdentity project target ns) :: rest := by
  unfold EnsureScheduleAndBackup
  split
  · exact ⟨_, createVeleroSchedule_calls client project target ns "@every 5m" w⟩
  · split <;>
    · rw [createVeleroBackup_calls, createVeleroSchedule_calls]
      exact ⟨_, List.append_assoc _ (_ :: _) _⟩

/-- On Create the second switch is `EnsureScheduleAndBackup` for the current
target when the current labels are enrolled, and nothing otherwise. -/
theorem runActions_create {σ : Type} (client : Client σ) (now : Time)
    (ns oldNamespace : Namespace) (w : World σ) :
    runActions client now Create ns oldNamespace w =
      if enrolled ns.Labels then
        EnsureScheduleAndBackup client now "test-project" (targetNameOf ns.Labels) ns.Name w
      else (none, w) := by
  simp only [runActions, if_true, condition_eq_enrolled]
  simp only [mapIndex_fst, targetNameOf, EnsureScheduleAndBackup, StatusInternalServerError]

/-- The handler on a Create request whose current object decodes, when the
client can be built. -/
theorem handler_create {σ : Type} (client : Client σ) (now : Time)
    (request : AdmissionRequest) (ns : Namespace) (w : World σ)
    (hop : request.Operation = Create) (hobj : request.Object = .valid ns) :
    ServerNamespaceBackup inCluster client now (admission request) w =
      if enrolled ns.Labels then
        (((EnsureScheduleAndBackup client now "test-project" (targetNameOf ns.Labels)
            ns.Name w).1).getD (.review { Allowed := true, UID := request.UID }),
          (EnsureScheduleAndBackup client now "test-project" (targetNameOf ns.Labels)
            ns.Name w).2)
      else (.review { Allowed := true, UID := request.UID }, w) := by
  rw [handler_of_decoded client now request ns Namespace.zero w hobj
    (by simp [decodeOldNamespace, hop]), hop, runActions_create]
  cases enrolled ns.Labels
  · simp
  · simp only [if_true]
    cases (EnsureScheduleAndBackup client now "test-project" (targetNameOf ns.Labels)
      ns.Name w).1 <;> rfl

/-- C5. On Create with a decodable current object the handler carries out
`EnsureScheduleAndBackup` for the current target, beginning with the read of
the schedule `test-project-<target>-<namespace>`, if and only if the current
labels hold the target key with a non-empty value and the runtime key with
value exactly `"target"`; otherwise it issues no call and answers with the
allowing review. The outcome is the same for any other Create request with
the same UID, namespace name and values of these two labels, whatever its
other labels and its previous object. -/
theorem create_ensures_iff_enrolled {σ : Type} (client : Client σ) (now : Time)
    (request other : AdmissionRequest) (ns otherNs : Namespace) (w : World σ)
    (hop : request.Operation = Create) (hobj : request.Object = .valid ns)
    (hop2 : other.Operation = Create) (hobj2 : other.Object = .valid otherNs)
    (huid : other.UID = request.UID) (hname : otherNs.Name = ns.Name)
    (htarget : otherNs.Labels.lookup "namespace.oam.dev/target"
      = ns.Labels.lookup "namespace.oam.dev/target")
    (hruntime : otherNs.Labels.lookup "usage.oam.dev/runtime"
      = ns.Labels.lookup "usage.oam.dev/runtime") :
    (ServerNamespaceBackup inCluster client now (admission request) w =
      if enrolled ns.Labels then
        (((EnsureScheduleAndBackup client now "test-project" (targetNameOf ns.Labels)
            ns.Name w).1).getD (.review { Allowed := true, UID := request.UID }),
          (EnsureScheduleAndBackup client now "test-project" (targetNameOf ns.Labels)
            ns.Name w).2)
      else (.review { Allowed := true, UID := request.UID }, w))
    ∧ (if enrolled ns.Labels then
        ∃ rest, (ServerNamespaceBackup inCluster client now (admission request) w).2.calls
          = w.calls ++ Call.get schedules "velero"
              (scheduleIdentity "test-project" (targetNameOf ns.Labels) ns.Name) :: rest
      else (ServerNamespaceBackup inCluster client now (admission request) w).2.calls
          = w.calls)
    ∧ ((ServerNamespaceBackup inCluster client now (admission request) w).2.calls ≠ w.calls
        ↔ ∃ target, ns.Labels.lookup "namespace.oam.dev/target" = some target ∧ target ≠ ""
            ∧ ns.Labels.lookup "usage.oam.dev/runtime" = some "target")
    ∧ ServerNamespaceBackup inCluster client now (admission other) w
        = ServerNamespaceBackup inCluster client now (admission request) w := by
  have hmain := handler_create client now request ns w hop hobj
  have hother := handler_create client now other otherNs w hop2 hobj2
  have henr : enrolled otherNs.Labels = enrolled ns.Labels := by
    simp only [enrolled, htarget, hruntime]
  have htn : targetNameOf otherNs.Labels = targetNameOf ns.Labels := by
    simp only [targetNameOf, htarget]
  obtain ⟨rest, hrest⟩ := EnsureScheduleAndBackup_calls client now "test-project"
    (targetNameOf ns.Labels) ns.Name w
  refine ⟨hmain, ?_, ?_, ?_⟩
  · rw [hmain]
    cases enrolled ns.Labels
    · simp
    · simp only [if_true]
      exact ⟨rest, hrest⟩
  · rw [← enrolled_iff, hmain]
    cases enrolled ns.Labels
    · simp
    · simp only [if_true, hrest]
      simp
  · rw [hother, hmain, henr, htn, hname, huid]

/-- Witness of C5: two enrolled Create requests that differ in an unrelated
label and in the previous payload, on the empty store. -/
theorem create_ensures_iff_enrolled_witness :
    ServerNamespaceBackup inCluster storeClient instant1
        (admission { UID := "uid-1", Operation := Create,
                     Object := .valid { Name := "ns", Labels := ("team", "a") :: prodLabels },
                     OldObject := .invalid "unexpected end of JSON input" }) emptyWorld
      = ServerNamespaceBackup inCluster storeClient instant1
        (admission { UID := "uid-1", Operation := Create,
                     Object := .valid { Name := "ns", Labels := prodLabels },
                     OldObject := .valid { Name := "ns", Labels := [] } }) emptyWorld :=
  (create_ensures_iff_enrolled storeClient instant1
    { UID := "uid-1", Operation := Create,
      Object := .valid { Name := "ns", Labels := prodLabels },
      OldObject := .valid { Name := "ns", Labels := [] } }
    { UID := "uid-1", Operation := Create,
      Object := .valid { Name := "ns", Labels := ("team", "a") :: prodLabels },
      OldObject := .invalid "unexpected end of JSON input" }
    { Name := "ns", Labels := prodLabels }
    { Name := "ns", Labels := ("team", "a") :: prodLabels } emptyWorld
    rfl rfl rfl rfl rfl rfl (by decide) (by decide)).2.2.2

/-- The runtime label is compared exactly: on Create, the values `"Target"`
and `" target"`, an empty target and an absent target key give no call. -/
theorem create_runtime_exact :
    ServerNamespaceBackup inCluster storeClient instant1
        (admission { UID := "uid-1", Operation := Create,
                     Object := .valid { Name := "ns", Labels :=
                       [("namespace.oam.dev/target", "prod"),
                        ("usage.oam.dev/runtime", "Target")] },
                     OldObject := .invalid "" }) emptyWorld
        = (.review { Allowed := true, UID := "uid-1" }, emptyWorld)
      ∧ ServerNamespaceBackup inCluster storeClient instant1
        (admission { UID := "uid-1", Operation := Create,
                     Object := .valid { Name := "ns", Labels :=
                       [("namespace.oam.dev/target", "prod"),
                        ("usage.oam.dev/runtime", " target")] },
                     OldObject := .invalid "" }) emptyWorld
        = (.review { Allowed := true, UID := "uid-1" }, emptyWorld)
      ∧ ServerNamespaceBackup inCluster storeClient instant1
        (admission { UID := "uid-1", Operation := Create,
                     Object := .valid { Name := "ns", Labels :=
                       [("namespace.oam.dev/target", ""),
                        ("usage.oam.dev/runtime", "target")] },
                     OldObject := .invalid "" }) emptyWorld
        = (.review { Allowed := true, UID := "uid-1" }, emptyWorld)
      ∧ ServerNamespaceBackup inCluster storeClient instant1
        (admission { UID := "uid-1", Operation := Create,
                     Object := .valid { Name := "ns", Labels :=
                       [("usage.oam.dev/runtime", "target")] },
                     OldObject := .invalid "" }) emptyWorld
        = (.review { Allowed := true, UID := "uid-1" }, emptyWorld) :=
  ⟨rfl, rfl, rfl, rfl⟩

/-! ## The response -/

/-- With a client whose creations and deletions succeed, `createVeleroSchedule`
returns no error. -/
theorem createVeleroSchedule_ok {σ : Type} (client : Client σ)
    (project target ns cron : String) (w : World σ)
    (hok : ∀ k s, Call.isGet k = false → (client k s).1 = none) :
    (createVeleroSchedule client project target ns cron w).1 = none := by
  simp only [createVeleroSchedule, invoke]
  split
  · rfl
  · simp [hok, Call.isGet]

/-- With a client whose creations and deletions succeed, `createVeleroBackup`
returns no error. -/
theorem createVeleroBackup_ok {σ : Type} (client : Client σ) (now : Time)
    (project target ns : String) (w : World σ)
    (hok : ∀ k s, Call.isGet k = false → (client k s).1 = none) :
    (createVeleroBackup client now project target ns w).1 = none := by
  simp [createVeleroBackup, invoke, hok, Call.isGet]

/-- With a client whose creations and deletions succeed, `deleteVeleroSchedule`
returns no error. -/
theorem deleteVeleroSchedule_ok {σ : Type} (client : Client σ)
    (project target ns : String) (w : World σ)
    (hok : ∀ k s, Call.isGet k = false → (client k s).1 = none) :
    (deleteVeleroSchedule client project target ns w).1 = none := by
  simp [deleteVeleroSchedule, invoke, hok, Call.isGet]

/-- With a client whose creations and deletions succeed, the second switch
never returns early. -/
theorem runActions_ok {σ : Type} (client : Client σ) (now : Time) (operation : Operation)
    (ns oldNamespace : Namespace) (w : World σ)
    (hok : ∀ k s, Call.isGet k = false → (client k s).1 = none) :
    (runActions client now operation ns oldNamespace w).1 = none := by
  simp only [runActions]
  split_ifs <;>
    simp only [createVeleroSchedule_ok client _ _ _ _ _ hok,
      createVeleroBackup_ok client now _ _ _ _ hok,
      deleteVeleroSchedule_ok client _ _ _ _ hok]

/-- What the second switch writes when it returns early is an `http.Error`. -/
theorem runActions_written {σ : Type} (client : Client σ) (now : Time)
    (operation : Operation) (ns oldNamespace : Namespace) (w : World σ)
    (written : ResponseWriter)
    (h : (runActions client now operation ns oldNamespace w).1 = some written) :
    ∃ error code, written = .httpError error code := by
  simp only [runActions] at h
  split_ifs at h <;> (try split at h) <;> (try split at h) <;> simp at h <;>
    exact ⟨_, _, h.symm⟩

/-- What the first switch writes when it returns early is not a review. -/
theorem decodeOldNamespace_written (request : AdmissionRequest) (written : ResponseWriter)
    (h : decodeOldNamespace request = .error written) (response : AdmissionResponse) :
    written ≠ .review response := by
  simp only [decodeOldNamespace] at h
  split_ifs at h <;> first
    | (simp at h; done)
    | (split at h <;> simp at h <;> subst h <;> simp)
    | (simp at h; subst h; simp)

/-- Every review the handler writes allows and carries the UID of the request. -/
theorem review_allows {σ : Type} (cluster : Cluster) (client : Client σ) (now : Time)
    (r : HttpRequest) (w : World σ) (response : AdmissionResponse)
    (h : (ServerNamespaceBackup cluster client now r w).1 = .review response) :
    ∃ request, parseRequest r = .ok request
      ∧ response = { Allowed := true, UID := request.UID } := by
  unfold ServerNamespaceBackup at h
  split at h
  · simp at h
  · rename_i request hparse
    refine ⟨request, hparse, ?_⟩
    split at h
    · simp at h
    · split at h
      · rename_i written hw
        exact absurd h (decodeOldNamespace_written request written hw response)
      · split at h
        · simp at h
        · split at h
          · simp at h
          · dsimp only at h
            split at h
            · rename_i written hw
              obtain ⟨e, c, he⟩ := runActions_written client now _ _ _ w written hw
              simp [he] at h
            · simp at h
              exact h.symm

/-- C8, as amended. For every admission request that parses and whose two
object payloads decode, when the client can be built and every creation and
deletion on the external API succeeds: if the operation is Create, Update or
Delete the handler writes the review with `Allowed = true` and the UID of the
request; if the operation is of any other kind the handler issues no call,
reports no error and writes nothing at all. And on every path, whatever the
cluster, the client and the request, a review the handler writes has
`Allowed = true` and the UID of the request. -/
theorem response_allows_or_silent {σ : Type} (client : Client σ) (now : Time)
    (request : AdmissionRequest) (ns oldNamespace : Namespace) (w : World σ)
    (hobj : request.Object = .valid ns) (hold : request.OldObject = .valid oldNamespace)
    (hok : ∀ k s, Call.isGet k = false → (client k s).1 = none) :
    (if request.Operation = Create ∨ request.Operation = Update
          ∨ request.Operation = Delete then
        (ServerNamespaceBackup inCluster client now (admission request) w).1
          = .review { Allowed := true, UID := request.UID }
      else ServerNamespaceBackup inCluster client now (admission request) w = (.nothing, w))
    ∧ ∀ (cluster : Cluster) (anyClient : Client σ) (r : HttpRequest) (v : World σ)
        (response : AdmissionResponse),
        (ServerNamespaceBackup cluster anyClient now r v).1 = .review response →
        ∃ parsed, parseRequest r = .ok parsed
          ∧ response = { Allowed := true, UID := parsed.UID } := by
  refine ⟨?_, fun cluster anyClient r v response h =>
    review_allows cluster anyClient now r v response h⟩
  split_ifs with hop
  · have hdec : ∃ o, decodeOldNamespace request = .ok o := by
      rcases hop with h | h | h
      · exact ⟨Namespace.zero, by simp [decodeOldNamespace, h]⟩
      · exact ⟨oldNamespace, by
          simp [decodeOldNamespace, h, hold, jsonUnmarshal, Update, Create]⟩
      · exact ⟨oldNamespace, by
          simp [decodeOldNamespace, h, hold, jsonUnmarshal, Update, Create, Delete]⟩
    obtain ⟨o, ho⟩ := hdec
    rw [handler_of_decoded client now request ns o w hobj ho,
      runActions_ok client now _ ns o w hok]
  · have h1 : ¬ request.Operation = Create := fun h => hop (Or.inl h)
    have h2 : ¬ request.Operation = Update := fun h => hop (Or.inr (Or.inl h))
    have h3 : ¬ request.Operation = Delete := fun h => hop (Or.inr (Or.inr h))
    simp [ServerNamespaceBackup, parseRequest, admission, jsonUnmarshal, hobj,
      decodeOldNamespace, h1, h2, h3]

/-- Witness of C8 as amended: a Create of an enrolled namespace against a
client whose reads report "not found". -/
theorem response_allows_or_silent_witness :
    (∀ k s, Call.isGet k = false → (freshClient k s).1 = none)
      ∧ (ServerNamespaceBackup inCluster freshClient instant1
          (admission { UID := "uid-1", Operation := Create,
                       Object := .valid { Name := "ns", Labels := prodLabels },
                       OldObject := .valid { Name := "ns", Labels := [] } })
          { state := (), calls := [] }).1
        = .review { Allowed := true, UID := "uid-1" } :=
  ⟨fun k s h => by cases k <;> first | rfl | simp [Call.isGet] at h,
    (response_allows_or_silent freshClient instant1
      { UID := "uid-1", Operation := Create,
        Object := .valid { Name := "ns", Labels := prodLabels },
        OldObject := .valid { Name := "ns", Labels := [] } }
      { Name := "ns", Labels := prodLabels } { Name := "ns", Labels := [] }
      { state := (), calls := [] } rfl rfl
      (fun k s h => by cases k <;> first | rfl | simp [Call.isGet] at h)).1⟩

/-- Counterexample to C8 as stated: on a request of kind CONNECT that parses,
whose payloads decode and that makes no external call, the handler writes
nothing, so it does not write the allowing review. -/
theorem unknown_operation_writes_nothing :
    ServerNamespaceBackup inCluster okClient instant1
        (admission { UID := "uid-1", Operation := Connect,
                     Object := .valid { Name := "ns", Labels := prodLabels },
                     OldObject := .valid { Name := "ns", Labels := prodLabels } })
        { state := (), calls := [] }
      = (.nothing, { state := (), calls := [] })
    ∧ (ServerNamespaceBackup inCluster okClient instant1
        (admission { UID := "uid-1", Operation := Connect,
                     Object := .valid { Name := "ns", Labels := prodLabels },
                     OldObject := .valid { Name := "ns", Labels := prodLabels } })
        { state := (), calls := [] }).1
      ≠ .review { Allowed := true, UID := "uid-1" } :=
  ⟨rfl, by decide⟩

/-! ## The second switch, operation by operation -/

/-- The condition under which an Update creates (line 116). -/
theorem update_create_condition (labels oldLabels : List (String × String)) :
    ((mapIndex labels "namespace.oam.dev/target").2
      && (mapIndex labels "namespace.oam.dev/target").1 != ""
      && (mapIndex labels "usage.oam.dev/runtime").2
      && (mapIndex labels "usage.oam.dev/runtime").1 == "target"
      && (!(mapIndex oldLabels "namespace.oam.dev/target").2
          || (mapIndex oldLabels "namespace.oam.dev/target").1 == "")
      && (!(mapIndex oldLabels "usage.oam.dev/runtime").2
          || (mapIndex oldLabels "usage.oam.dev/runtime").1 == ""))
      = (enrolled labels && unlabelled oldLabels) := by
  rw [condition_eq_enrolled, Bool.and_assoc]
  congr 1
  unfold mapIndex unlabelled
  cases oldLabels.lookup "namespace.oam.dev/target" <;>
    cases oldLabels.lookup "usage.oam.dev/runtime" <;> simp

/-- The condition under which an Update deletes (line 130). -/
theorem update_delete_condition (labels oldLabels : List (String × String)) :
    ((!(mapIndex labels "namespace.oam.dev/target").2
        || (mapIndex labels "namespace.oam.dev/target").1 == ""
        || !(mapIndex labels "usage.oam.dev/runtime").2
        || (mapIndex labels "usage.oam.dev/runtime").1 != "target")
      && (mapIndex oldLabels "namespace.oam.dev/target").2
      && (mapIndex oldLabels "namespace.oam.dev/target").1 != ""
      && (mapIndex oldLabels "usage.oam.dev/runtime").2
      && (mapIndex oldLabels "usage.oam.dev/runtime").1 == "target")
      = (!enrolled labels && enrolled oldLabels) := by
  rw [← condition_eq_enrolled oldLabels, ← condition_eq_enrolled labels]
  generalize (mapIndex labels "namespace.oam.dev/target") = a
  generalize (mapIndex labels "usage.oam.dev/runtime") = b
  generalize (mapIndex oldLabels "namespace.oam.dev/target") = c
  generalize (mapIndex oldLabels "usage.oam.dev/runtime") = d
  simp only [bne]
  generalize (a.1 == "") = p
  generalize (b.1 == "target") = q
  generalize (c.1 == "") = x
  generalize (d.1 == "target") = y
  cases a.2 <;> cases b.2 <;> cases c.2 <;> cases d.2 <;>
    cases p <;> cases q <;> cases x <;> cases y <;> rfl

/-- On Update the second switch is `EnsureScheduleAndBackup` for the current
target when the current labels are enrolled and the previous ones carry
neither label, `DeleteSchedule` for the current target when the current labels
are not enrolled and the previous ones are, and nothing otherwise. -/
theorem runActions_update {σ : Type} (client : Client σ) (now : Time)
    (ns oldNamespace : Namespace) (w : World σ) :
    runActions client now Update ns oldNamespace w =
      if enrolled ns.Labels && unlabelled oldNamespace.Labels then
        EnsureScheduleAndBackup client now "test-project" (targetNameOf ns.Labels) ns.Name w
      else if !enrolled ns.Labels && enrolled oldNamespace.Labels then
        DeleteSchedule client "test-project" (targetNameOf ns.Labels) ns.Name w
      else (none, w) := by
  have hne : ¬ Update = Create := by decide
  simp only [runActions, hne, if_false, if_true, update_create_condition,
    update_delete_condition]
  simp only [mapIndex_fst, targetNameOf, EnsureScheduleAndBackup, DeleteSchedule,
    StatusInternalServerError]

/-- On Delete the second switch is `DeleteSchedule` for the current target
when the current labels are enrolled, and nothing otherwise; the previous
namespace plays no part. -/
theorem runActions_delete {σ : Type} (client : Client σ) (now : Time)
    (ns oldNamespace : Namespace) (w : World σ) :
    runActions client now Delete ns oldNamespace w =
      if enrolled ns.Labels then
        DeleteSchedule client "test-project" (targetNameOf ns.Labels) ns.Name w
      else (none, w) := by
  have hne : ¬ Delete = Create := by decide
  have hne2 : ¬ Delete = Update := by decide
  simp only [runActions, hne, hne2, if_false, if_true, condition_eq_enrolled]
  simp only [mapIndex_fst, targetNameOf, DeleteSchedule, StatusInternalServerError]

/-- The calls of `DeleteSchedule`. -/
theorem DeleteSchedule_calls {σ : Type} (client : Client σ)
    (project target ns : String) (w : World σ) :
    (DeleteSchedule client project target ns w).2.calls =
      w.calls ++ [Call.delete schedules "velero" (scheduleIdentity project target ns)] := by
  unfold DeleteSchedule
  split <;> exact deleteVeleroSchedule_calls client project target ns w

/-- The calls of `EnsureScheduleAndBackup`, all on the one identity. -/
theorem EnsureScheduleAndBackup_names {σ : Type} (client : Client σ) (now : Time)
    (project target ns : String) (w : World σ) :
    ∃ new, (EnsureScheduleAndBackup client now project target ns w).2.calls = w.calls ++ new
      ∧ ∀ k ∈ new, Call.name k = scheduleIdentity project target ns
          ∨ Call.name k = scheduleIdentity project target ns ++ "-" ++ now.Format := by
  unfold EnsureScheduleAndBackup
  split
  · refine ⟨_, createVeleroSchedule_calls client project target ns "@every 5m" w, ?_⟩
    intro k hk
    split_ifs at hk <;> simp at hk <;> first
      | (subst hk; simp [Call.name, scheduleObject])
      | (rcases hk with h | h <;> subst h <;> simp [Call.name, scheduleObject])
  · split <;>
    · rw [createVeleroBackup_calls, createVeleroSchedule_calls]
      refine ⟨_, List.append_assoc _ (_ :: _) _, ?_⟩
      intro k hk
      split_ifs at hk <;> simp at hk <;> first
        | (rcases hk with h | h <;> subst h <;>
            simp [Call.name, scheduleObject, backupObject])
        | (rcases hk with h | h | h <;> subst h <;>
            simp [Call.name, scheduleObject, backupObject])

/-- Every call of the second switch is on the identity built from the project
`test-project`, the current target and the current namespace name. -/
theorem runActions_names {σ : Type} (client : Client σ) (now : Time)
    (operation : Operation) (ns oldNamespace : Namespace) (w : World σ) :
    ∃ new, (runActions client now operation ns oldNamespace w).2.calls = w.calls ++ new
      ∧ ∀ k ∈ new,
          Call.name k = scheduleIdentity "test-project" (targetNameOf ns.Labels) ns.Name
          ∨ Call.name k = scheduleIdentity "test-project" (targetNameOf ns.Labels) ns.Name
              ++ "-" ++ now.Format := by
  have hdel : ∃ new, (DeleteSchedule client "test-project" (targetNameOf ns.Labels)
        ns.Name w).2.calls = w.calls ++ new
      ∧ ∀ k ∈ new,
          Call.name k = scheduleIdentity "test-project" (targetNameOf ns.Labels) ns.Name
          ∨ Call.name k = scheduleIdentity "test-project" (targetNameOf ns.Labels) ns.Name
              ++ "-" ++ now.Format :=
    ⟨_, DeleteSchedule_calls client _ _ _ w, by simp [Call.name]⟩
  have hnone : ∃ new, w.calls = w.calls ++ new
      ∧ ∀ k ∈ new,
          Call.name k = scheduleIdentity "test-project" (targetNameOf ns.Labels) ns.Name
          ∨ Call.name k = scheduleIdentity "test-project" (targetNameOf ns.Labels) ns.Name
              ++ "-" ++ now.Format := ⟨[], by simp, by simp⟩
  by_cases h1 : operation = Create
  · subst h1
    rw [runActions_create]
    split_ifs
    · exact EnsureScheduleAndBackup_names client now _ _ _ w
    · exact hnone
  · by_cases h2 : operation = Update
    · subst h2
      rw [runActions_update]
      split_ifs
      · exact EnsureScheduleAndBackup_names client now _ _ _ w
      · exact hdel
      · exact hnone
    · by_cases h3 : operation = Delete
      · subst h3
        rw [runActions_delete]
        split_ifs
        · exact hdel
        · exact hnone
      · simp only [runActions, h1, h2, h3, if_false]
        exact hnone

/-- Every call of the handler is on an identity built from the project
`test-project`. -/
theorem handler_names {σ : Type} (cluster : Cluster) (client : Client σ) (now : Time)
    (r : HttpRequest) (w : World σ) :
    ∃ new target ns,
      (ServerNamespaceBackup cluster client now r w).2.calls = w.calls ++ new
      ∧ ∀ k ∈ new, Call.name k = "test-project" ++ "-" ++ target ++ "-" ++ ns
          ∨ Call.name k = "test-project" ++ "-" ++ target ++ "-" ++ ns ++ "-" ++ now.Format := by
  have hnone : ∃ new target ns, w.calls = w.calls ++ new
      ∧ ∀ k ∈ new, Call.name k = "test-project" ++ "-" ++ target ++ "-" ++ ns
          ∨ Call.name k = "test-project" ++ "-" ++ target ++ "-" ++ ns ++ "-" ++ now.Format :=
    ⟨[], "", "", by simp, by simp⟩
  unfold ServerNamespaceBackup
  split
  · exact hnone
  · split
    · exact hnone
    · rename_i ns _
      split
      · exact hnone
      · rename_i oldNamespace _
        split
        · exact hnone
        · split
          · exact hnone
          · obtain ⟨new, hnew, hall⟩ :=
              runActions_names client now _ ns oldNamespace w
            dsimp only
            split <;> exact ⟨new, _, _, hnew, hall⟩

/-! ## The timestamp -/

theorem utod_isDigit (u : Nat) (h : u < 10) : (utod u).isDigit = true := by
  interval_cases u <;> decide

theorem appendInt_two (x : Nat) (h : x < 100) :
    (appendInt x 2).length = 2 ∧ ∀ c ∈ appendInt x 2, c.isDigit = true := by
  have h1 : x / 10 < 10 := by omega
  have h2 : x % 10 < 10 := by omega
  simp [appendInt, h, utod_isDigit _ h1, utod_isDigit _ h2]

theorem appendInt_four (x : Nat) (h : x < 10000) :
    (appendInt x 4).length = 4 ∧ ∀ c ∈ appendInt x 4, c.isDigit = true := by
  have h1 : x / 1000 < 10 := by omega
  have h2 : x / 100 % 10 < 10 := by omega
  have h3 : x / 10 % 10 < 10 := by omega
  have h4 : x % 10 < 10 := by omega
  simp [appendInt, h, utod_isDigit _ h1, utod_isDigit _ h2, utod_isDigit _ h3,
    utod_isDigit _ h4]

/-- The timestamp of a valid wall-clock time is fourteen decimal digits. -/
theorem Format_digits (t : Time) (h : t.Valid) :
    t.Format.length = 14 ∧ ∀ c ∈ t.Format.data, c.isDigit = true := by
  obtain ⟨hy, _, hm, _, hd, hh, hmin, hs⟩ := h
  obtain ⟨ly, dy⟩ := appendInt_four t.year hy
  obtain ⟨lm, dm⟩ := appendInt_two t.month (by omega)
  obtain ⟨ld, dd⟩ := appendInt_two t.day (by omega)
  obtain ⟨lh, dh⟩ := appendInt_two t.hour (by omega)
  obtain ⟨lmin, dmin⟩ := appendInt_two t.minute (by omega)
  obtain ⟨ls, ds⟩ := appendInt_two t.second (by omega)
  constructor
  · simp only [Time.Format, String.length, List.length_append, ly, lm, ld, lh, lmin, ls]
  · intro c hc
    simp only [Time.Format, List.mem_append] at hc
    rcases hc with ((((hc | hc) | hc) | hc) | hc) | hc
    · exact dy c hc
    · exact dm c hc
    · exact dd c hc
    · exact dh c hc
    · exact dmin c hc
    · exact ds c hc

/-- C10. The three operations compute one and the same schedule identity,
`project ++ "-" ++ target ++ "-" ++ namespace`: it is the name
`createVeleroSchedule` reads and, when it creates, the name of the schedule it
creates; it is the name `deleteVeleroSchedule` deletes; and the backup
`createVeleroBackup` creates is named by that identity followed by `"-"` and
the timestamp of the call, which for a wall-clock time with a four-digit year
is fourteen decimal digits (year, month, day, hour, minute, second). Every
call the handler issues is on an identity whose project is `test-project`. -/
theorem identities_agree {σ : Type} (cluster : Cluster) (client : Client σ) (now : Time)
    (project target ns cron : String) (r : HttpRequest) (w : World σ)
    (hnow : now.Valid) :
    (createVeleroSchedule client project target ns cron w).2.calls =
        w.calls ++ Call.get schedules "velero" (project ++ "-" ++ target ++ "-" ++ ns) ::
          (if (client (.get schedules "velero" (project ++ "-" ++ target ++ "-" ++ ns))
                w.state).1 = none
            then [Call.create schedules "velero"
              (scheduleObject (project ++ "-" ++ target ++ "-" ++ ns) ns cron)]
            else [])
      ∧ (createVeleroBackup client now project target ns w).2.calls =
        w.calls ++ [Call.create backups "velero"
          (backupObject (project ++ "-" ++ target ++ "-" ++ ns ++ "-" ++ now.Format) ns)]
      ∧ (deleteVeleroSchedule client project target ns w).2.calls =
        w.calls ++ [Call.delete schedules "velero" (project ++ "-" ++ target ++ "-" ++ ns)]
      ∧ now.Format.length = 14
      ∧ (∀ c ∈ now.Format.data, c.isDigit = true)
      ∧ now.Format = String.mk (appendInt now.year 4 ++ appendInt now.month 2
          ++ appendInt now.day 2 ++ appendInt now.hour 2 ++ appendInt now.minute 2
          ++ appendInt now.second 2)
      ∧ ∃ new handlerTarget handlerNs,
          (ServerNamespaceBackup cluster client now r w).2.calls = w.calls ++ new
          ∧ ∀ k ∈ new,
              Call.name k = "test-project" ++ "-" ++ handlerTarget ++ "-" ++ handlerNs
              ∨ Call.name k = "test-project" ++ "-" ++ handlerTarget ++ "-" ++ handlerNs
                  ++ "-" ++ now.Format :=
  ⟨createVeleroSchedule_calls client project target ns cron w,
    createVeleroBackup_calls client now project target ns w,
    deleteVeleroSchedule_calls client project target ns w,
    (Format_digits now hnow).1, (Format_digits now hnow).2, rfl,
    handler_names cluster client now r w⟩

/-- Witness of C10: the backup created at 2024-01-02 03:04:05 for the triple
`test-project`, `prod`, `ns`, and the schedule deleted for the same triple. -/
theorem identities_agree_witness :
    instant1.Valid
      ∧ (createVeleroBackup storeClient instant1 "test-project" "prod" "ns" prodWorld).2.calls
        = [Call.create backups "velero"
            (backupObject "test-project-prod-ns-20240102030405" "ns")]
      ∧ (deleteVeleroSchedule storeClient "test-project" "prod" "ns" prodWorld).2.calls
        = [Call.delete schedules "velero" "test-project-prod-ns"]
      ∧ instant1.Format.length = 14 :=
  have h : instant1.Valid := by
    simp [Time.Valid, instant1]
  have key := identities_agree inCluster storeClient instant1 "test-project" "prod" "ns"
    "@every 5m"
    (admission { UID := "uid-1", Operation := Create,
                 Object := .valid { Name := "ns", Labels := prodLabels },
                 OldObject := .invalid "" }) prodWorld h
  ⟨h, key.2.1, key.2.2.1, key.2.2.2.1⟩

/-! ## Update and Delete in general -/

/-- The handler on an Update whose two payloads decode, when the client can
be built. -/
theorem handler_update {σ : Type} (client : Client σ) (now : Time) (uid : String)
    (ns oldNamespace : Namespace) (w : World σ) :
    ServerNamespaceBackup inCluster client now
        (admission { UID := uid, Operation := Update, Object := .valid ns,
                     OldObject := .valid oldNamespace }) w =
      if enrolled ns.Labels && unlabelled oldNamespace.Labels then
        (((EnsureScheduleAndBackup client now "test-project" (targetNameOf ns.Labels)
            ns.Name w).1).getD (.review { Allowed := true, UID := uid }),
          (EnsureScheduleAndBackup client now "test-project" (targetNameOf ns.Labels)
            ns.Name w).2)
      else if !enrolled ns.Labels && enrolled oldNamespace.Labels then
        (((DeleteSchedule client "test-project" (targetNameOf ns.Labels) ns.Name w).1).getD
            (.review { Allowed := true, UID := uid }),
          (DeleteSchedule client "test-project" (targetNameOf ns.Labels) ns.Name w).2)
      else (.review { Allowed := true, UID := uid }, w) := by
  rw [handler_of_decoded client now _ ns oldNamespace w rfl
    (by simp [decodeOldNamespace, Update, Create, jsonUnmarshal])]
  simp only [runActions_update]
  split_ifs
  · cases (EnsureScheduleAndBackup client now "test-project" (targetNameOf ns.Labels)
      ns.Name w).1 <;> rfl
  · cases (DeleteSchedule client "test-project" (targetNameOf ns.Labels) ns.Name w).1 <;> rfl
  · rfl

/-- The handler on a Delete whose two payloads decode, when the client can be
built: the previous namespace does not occur in the outcome. -/
theorem handler_delete {σ : Type} (client : Client σ) (now : Time) (uid : String)
    (ns oldNamespace : Namespace) (w : World σ) :
    ServerNamespaceBackup inCluster client now
        (admission { UID := uid, Operation := Delete, Object := .valid ns,
                     OldObject := .valid oldNamespace }) w =
      if enrolled ns.Labels then
        (((DeleteSchedule client "test-project" (targetNameOf ns.Labels) ns.Name w).1).getD
            (.review { Allowed := true, UID := uid }),
          (DeleteSchedule client "test-project" (targetNameOf ns.Labels) ns.Name w).2)
      else (.review { Allowed := true, UID := uid }, w) := by
  rw [handler_of_decoded client now _ ns oldNamespace w rfl
    (by simp [decodeOldNamespace, Update, Create, Delete, jsonUnmarshal])]
  simp only [runActions_delete]
  split_ifs
  · cases (DeleteSchedule client "test-project" (targetNameOf ns.Labels) ns.Name w).1 <;> rfl
  · rfl

/-- On an Update from enrolled previous labels to current labels that are not
enrolled, the one call is the deletion of the identity built from the current
target label. -/
theorem update_unenroll_calls {σ : Type} (client : Client σ) (now : Time) (uid : String)
    (ns oldNamespace : Namespace) (w : World σ)
    (hcur : enrolled ns.Labels = false) (hold : enrolled oldNamespace.Labels = true) :
    (ServerNamespaceBackup inCluster client now
        (admission { UID := uid, Operation := Update, Object := .valid ns,
                     OldObject := .valid oldNamespace }) w).2.calls =
      w.calls ++ [Call.delete schedules "velero"
        (scheduleIdentity "test-project" (targetNameOf ns.Labels) ns.Name)] := by
  rw [handler_update]
  simp [hcur, hold, DeleteSchedule_calls]

/-- On an Update to enrolled current labels from previous labels that carry a
non-empty value for either label, the handler issues no call. -/
theorem update_enroll_from_labelled {σ : Type} (client : Client σ) (now : Time)
    (uid : String) (ns oldNamespace : Namespace) (w : World σ)
    (hcur : enrolled ns.Labels = true) (hold : unlabelled oldNamespace.Labels = false) :
    ServerNamespaceBackup inCluster client now
        (admission { UID := uid, Operation := Update, Object := .valid ns,
                     OldObject := .valid oldNamespace }) w =
      (.review { Allowed := true, UID := uid }, w) := by
  rw [handler_update]
  simp [hcur, hold]

/-! ## Evaluations on the store model -/

/-- Against the store model `createVeleroSchedule` never adds a schedule: when
the read fails it returns at once, and when the read succeeds the creation is
refused because the name is present. -/
theorem createVeleroSchedule_never_creates (project target ns cron : String)
    (w : World Store) :
    (createVeleroSchedule storeClient project target ns cron w).2.state = w.state := by
  simp only [createVeleroSchedule, invoke, storeClient]
  by_cases h : (project ++ "-" ++ target ++ "-" ++ ns) ∈ w.state.schedules <;> simp [h]

/-- C1, evaluated. A Create of the enrolled namespace `ns` with target `prod`.
On a store without the schedule the handler reads the schedule, issues no
creation of it, creates the backup and allows: the calls are GetSchedule,
CreateBackup, and the store still has no schedule. On a store that holds the
schedule the handler reads it and then does issue the creation, which the
store refuses, and the call ends with HTTP 500 without a backup. -/
theorem create_skips_creation_when_absent :
    ServerNamespaceBackup inCluster storeClient instant1
        (admission { UID := "uid-1", Operation := Create,
                     Object := .valid { Name := "ns", Labels := prodLabels },
                     OldObject := .invalid "unexpected end of JSON input" }) emptyWorld
      = (.review { Allowed := true, UID := "uid-1" },
          { state := { schedules := [],
                       backups := ["test-project-prod-ns-20240102030405"] },
            calls := [Call.get schedules "velero" "test-project-prod-ns",
                      Call.create backups "velero"
                        (backupObject "test-project-prod-ns-20240102030405" "ns")] })
    ∧ ServerNamespaceBackup inCluster storeClient instant1
        (admission { UID := "uid-1", Operation := Create,
                     Object := .valid { Name := "ns", Labels := prodLabels },
                     OldObject := .invalid "unexpected end of JSON input" }) prodWorld
      = (.httpError "Failed to create Velero schedule: already exists" 500,
          { state := { schedules := ["test-project-prod-ns"], backups := [] },
            calls := [Call.get schedules "velero" "test-project-prod-ns",
                      Call.create schedules "velero"
                        (scheduleObject "test-project-prod-ns" "ns" "@every 5m")] }) :=
  ⟨rfl, rfl⟩

/-- C2, evaluated. An Update of namespace `ns` from the labels of an enrolled
namespace with target `prod` to no labels, on a store that holds the schedule
`test-project-prod-ns`: the one call is the deletion of `test-project--ns`,
the identity built from the current (absent, hence empty) target; the store
refuses it, the call ends with HTTP 500 and the schedule of `prod` stays. With
current labels that keep another target value, `dev`, the deletion is of
`test-project-dev-ns`. -/
theorem update_deletes_current_target_identity :
    ServerNamespaceBackup inCluster storeClient instant1
        (admission { UID := "uid-1", Operation := Update,
                     Object := .valid { Name := "ns", Labels := [] },
                     OldObject := .valid { Name := "ns", Labels := prodLabels } }) prodWorld
      = (.httpError "Failed to delete Velero schedule: not found" 500,
          { state := { schedules := ["test-project-prod-ns"], backups := [] },
            calls := [Call.delete schedules "velero" "test-project--ns"] })
    ∧ (ServerNamespaceBackup inCluster storeClient instant1
        (admission { UID := "uid-1", Operation := Update,
                     Object := .valid { Name := "ns", Labels :=
                       [("namespace.oam.dev/target", "dev")] },
                     OldObject := .valid { Name := "ns", Labels := prodLabels } })
        prodWorld).2.calls
      = [Call.delete schedules "velero" "test-project-dev-ns"] :=
  ⟨rfl, rfl⟩

/-- C3, evaluated. Deletes of namespace `ns`. With a current object without
labels and a previous object enrolled with target `prod` the handler issues no
call and allows. With no current payload at all (empty bytes) and the same
previous object it ends with HTTP 400. With a current object enrolled with
target `dev` and a previous object without labels it deletes
`test-project-dev-ns`. -/
theorem delete_decides_on_current_object :
    ServerNamespaceBackup inCluster storeClient instant1
        (admission { UID := "uid-1", Operation := Delete,
                     Object := .valid { Name := "ns", Labels := [] },
                     OldObject := .valid { Name := "ns", Labels := prodLabels } }) prodWorld
      = (.review { Allowed := true, UID := "uid-1" }, prodWorld)
    ∧ ServerNamespaceBackup inCluster storeClient instant1
        (admission { UID := "uid-1", Operation := Delete,
                     Object := .invalid "unexpected end of JSON input",
                     OldObject := .valid { Name := "ns", Labels := prodLabels } }) prodWorld
      = (.httpError "Could not parse namespace: unexpected end of JSON input" 400,
          prodWorld)
    ∧ (ServerNamespaceBackup inCluster storeClient instant1
        (admission { UID := "uid-1", Operation := Delete,
                     Object := .valid { Name := "ns", Labels :=
                       [("namespace.oam.dev/target", "dev"),
                        ("usage.oam.dev/runtime", "target")] },
                     OldObject := .valid { Name := "ns", Labels := [] } })
        prodWorld).2.calls
      = [Call.delete schedules "velero" "test-project-dev-ns"] :=
  ⟨rfl, rfl, rfl⟩

/-- C4, evaluated. Updates of namespace `ns` to the labels of an enrolled
namespace with target `prod`, on the empty store. From the previous labels
`{target: prod}` alone, from `{target: prod, runtime: other}` and from
`{runtime: other}` alone, none of them enrolled, the handler issues no call
and allows. From no previous labels it reads the schedule and creates the
backup. -/
theorem update_enrolls_only_from_unlabelled :
    ServerNamespaceBackup inCluster storeClient instant1
        (admission { UID := "uid-1", Operation := Update,
                     Object := .valid { Name := "ns", Labels := prodLabels },
                     OldObject := .valid { Name := "ns", Labels :=
                       [("namespace.oam.dev/target", "prod")] } }) emptyWorld
      = (.review { Allowed := true, UID := "uid-1" }, emptyWorld)
    ∧ ServerNamespaceBackup inCluster storeClient instant1
        (admission { UID := "uid-1", Operation := Update,
                     Object := .valid { Name := "ns", Labels := prodLabels },
                     OldObject := .valid { Name := "ns", Labels :=
                       [("namespace.oam.dev/target", "prod"),
                        ("usage.oam.dev/runtime", "other")] } }) emptyWorld
      = (.review { Allowed := true, UID := "uid-1" }, emptyWorld)
    ∧ ServerNamespaceBackup inCluster storeClient instant1
        (admission { UID := "uid-1", Operation := Update,
                     Object := .valid { Name := "ns", Labels := prodLabels },
                     OldObject := .valid { Name := "ns", Labels :=
                       [("usage.oam.dev/runtime", "other")] } }) emptyWorld
      = (.review { Allowed := true, UID := "uid-1" }, emptyWorld)
    ∧ (ServerNamespaceBackup inCluster storeClient instant1
        (admission { UID := "uid-1", Operation := Update,
                     Object := .valid { Name := "ns", Labels := prodLabels },
                     OldObject := .valid { Name := "ns", Labels := [] } })
        emptyWorld).2.calls
      = [Call.get schedules "velero" "test-project-prod-ns",
         Call.create backups "velero"
           (backupObject "test-project-prod-ns-20240102030405" "ns")] :=
  ⟨rfl, rfl, rfl, rfl⟩

/-- C7, evaluated. On the empty store, `EnsureScheduleAndBackup` run twice for
the triple `test-project`, `prod`, `ns`, one second apart: both runs succeed,
and the store ends with two backups of distinct names and with no schedule at
all. -/
theorem ensure_twice_leaves_no_schedule :
    (EnsureScheduleAndBackup storeClient instant1 "test-project" "prod" "ns" emptyWorld).1
      = none
    ∧ (EnsureScheduleAndBackup storeClient instant2 "test-project" "prod" "ns"
        (EnsureScheduleAndBackup storeClient instant1 "test-project" "prod" "ns"
          emptyWorld).2).1 = none
    ∧ (EnsureScheduleAndBackup storeClient instant2 "test-project" "prod" "ns"
        (EnsureScheduleAndBackup storeClient instant1 "test-project" "prod" "ns"
          emptyWorld).2).2.state
      = { schedules := [],
          backups := ["test-project-prod-ns-20240102030405",
                      "test-project-prod-ns-20240102030406"] } :=
  ⟨rfl, rfl, rfl⟩

end NamespaceWebhook
